import Mathlib

/-!
Verification of the dispatch CLI session relay and function-call observer
model. The definitions below are a shallow embedding of the Go source in
cli/run.go and cli/run_default.go: the thread-safe TUI model of function
calls (ObserveRequest / ObserveResponse), its derived render state
(status, attempt), the terminal status classifiers, the bridge poll
classification, and the child-environment construction.

Modelling conventions: time.Time is a Nat (0 is the Go zero value,
Before is <); Go errors are Option String holding the message; Go maps
are functions to Option (lookup of a missing key yields none, and the
zero-value read m.calls are modelled with getD); a Go panic is the none
result of an Option-returning operation; strings.HasPrefix is modelled
structurally on the character lists of the strings.
-/

namespace Dispatch

abbrev DispatchID := String

/-- Status enumeration of the dispatch SDK protocol (sdkv1.Status). -/
inductive Status where
  | unspecified
  | ok
  | timeout
  | throttled
  | invalidArgument
  | temporaryError
  | permanentError
  | incompatibleState
  | dnsError
  | tcpError
  | tlsError
  | httpError
  | unauthenticated
  | permissionDenied
  | notFound
  deriving DecidableEq, Repr

/-- Embeds terminalStatus from cli/run_default.go: the eight retryable
statuses are non-terminal, everything else (default case) is terminal. -/
def terminalStatus (status : Status) : Bool :=
  match status with
  | .timeout | .throttled | .temporaryError | .incompatibleState
  | .dnsError | .tcpError | .tlsError | .httpError => false
  | _ => true

/-- Embeds terminalHTTPStatusCode from cli/run_default.go, a switch on
code / 100 with cases 4, 5 and a default returning true. -/
def terminalHTTPStatusCode (code : Nat) : Bool :=
  if code / 100 = 4 then code != 408 && code != 429
  else if code / 100 = 5 then code == 501
  else true

/-- Embeds statusString from cli/run_default.go. The default branch is
reached only by the unspecified status, where Go falls back to the
generated enum name. -/
def statusString (status : Status) : String :=
  match status with
  | .ok => "OK"
  | .timeout => "Timeout"
  | .throttled => "Throttled"
  | .invalidArgument => "Invalid response"
  | .temporaryError => "Temporary error"
  | .permanentError => "Permanent error"
  | .incompatibleState => "Incompatible state"
  | .dnsError => "DNS error"
  | .tcpError => "TCP error"
  | .tlsError => "TLS error"
  | .httpError => "HTTP error"
  | .unauthenticated => "Unauthenticated"
  | .permissionDenied => "Permission denied"
  | .notFound => "Not found"
  | .unspecified => "STATUS_UNSPECIFIED"

/-- Tail-call target carried by an Exit directive (sdkv1.TailCall). -/
structure TailCall where
  function : String
  deriving DecidableEq, Repr

/-- Error payload of an Exit result (sdkv1.Error). -/
structure ExitError where
  type : String
  message : String
  deriving DecidableEq, Repr

/-- Result payload of an Exit directive (sdkv1.CallResult); only the error
field is read by the observer. -/
structure ExitResult where
  error : Option ExitError
  deriving DecidableEq, Repr

/-- Exit directive of a RunResponse (sdkv1.Exit). -/
structure ExitDirective where
  result : Option ExitResult
  tailCall : Option TailCall
  deriving DecidableEq, Repr

/-- Poll directive of a RunResponse (sdkv1.Poll); its payload is not read
by the observer. -/
structure PollDirective where
  coroutineState : String
  deriving DecidableEq, Repr

/-- Discriminated directive of a RunResponse; absent models a nil Go
interface value, on which both type-switch cases fall through. -/
inductive RunResponseDirective where
  | exit (e : ExitDirective)
  | poll (p : PollDirective)
  | absent
  deriving DecidableEq, Repr

/-- Response payload parsed from the local application (sdkv1.RunResponse). -/
structure RunResponse where
  status : Status
  directive : RunResponseDirective
  deriving DecidableEq, Repr

/-- Discriminated directive of a RunRequest; not read by the observer. -/
inductive RunRequestDirective where
  | input
  | pollResult
  | absent
  deriving DecidableEq, Repr

/-- Request payload delivered by the bridge (sdkv1.RunRequest), restricted
to the fields the observer reads. -/
structure RunRequest where
  function : String
  dispatchId : String
  rootDispatchId : String
  parentDispatchId : String
  creationTime : Option Nat
  expirationTime : Option Nat
  directive : RunRequestDirective
  deriving DecidableEq, Repr

/-- Request half of a timeline roundtrip (runRequest in cli/run_default.go). -/
structure RunRequestRecord where
  ts : Nat
  proto : RunRequest
  input : String
  deriving DecidableEq, Repr

/-- Response half of a timeline roundtrip (runResponse in cli/run_default.go). -/
structure RunResponseRecord where
  ts : Nat
  proto : Option RunResponse
  httpStatus : Nat
  err : Option String
  output : String
  deriving DecidableEq, Repr

/-- Roundtrip pairing one observed request with its response. -/
structure Roundtrip where
  request : RunRequestRecord
  response : RunResponseRecord
  deriving DecidableEq, Repr

/-- Model entity of one function call (functionCall in cli/run_default.go).
The Go children map is modelled as a duplicate-free list holding the key
set of the map. -/
structure FunctionCall where
  lastFunction : String
  lastStatus : Status
  lastError : Option String
  failures : Nat
  polls : Nat
  running : Bool
  suspended : Bool
  done : Bool
  creationTime : Nat
  expirationTime : Nat
  doneTime : Nat
  children : List DispatchID
  orderedChildren : List DispatchID
  timeline : List Roundtrip
  deriving DecidableEq, Repr

/-- Zero value of the response record. -/
def emptyRunResponseRecord : RunResponseRecord :=
  { ts := 0, proto := Option.none, httpStatus := 0, err := Option.none, output := "" }

/-- Zero value of functionCall (the Go struct literal functionCall{}). -/
def emptyFunctionCall : FunctionCall :=
  { lastFunction := "", lastStatus := Status.unspecified, lastError := Option.none,
    failures := 0, polls := 0, running := false, suspended := false, done := false,
    creationTime := 0, expirationTime := 0, doneTime := 0,
    children := [], orderedChildren := [], timeline := [] }

/-- Observer state of the TUI model: the roots set with its render order,
and the calls map keyed by dispatch id. -/
structure TUI where
  roots : DispatchID → Bool
  orderedRoots : List DispatchID
  calls : DispatchID → Option FunctionCall

/-- Zero value of the TUI model (empty maps, empty order). -/
def initTUI : TUI :=
  { roots := fun _ => false, orderedRoots := [], calls := fun _ => Option.none }

/-- Map write t.calls(id) = n. -/
def setCall (t : TUI) (id : DispatchID) (n : FunctionCall) : TUI :=
  { t with calls := fun x => if x = id then some n else t.calls x }

/-- Zero-value map read n := t.calls(id). -/
def getCall (t : TUI) (id : DispatchID) : FunctionCall :=
  (t.calls id).getD emptyFunctionCall

/-- Roundtrip appended by ObserveRequest: request stamped now, zero response. -/
def freshRoundtrip (now : Nat) (req : RunRequest) : Roundtrip :=
  { request := { ts := now, proto := req, input := "" },
    response := emptyRunResponseRecord }

/-- Child insertion step of ObserveRequest: add id to the parent's children
set and ordered sequence on first sight. -/
def linkChild (parent : FunctionCall) (id : DispatchID) : FunctionCall :=
  if parent.children.contains id then parent
  else { parent with children := parent.children ++ [id],
                     orderedChildren := parent.orderedChildren ++ [id] }

/-- Root upsert block of ObserveRequest: record the root id in the roots
set and render order on first sight, and insert a zero-value entry for it
in the calls map when absent. -/
def upsertRoot (t : TUI) (rootID : DispatchID) : TUI :=
  let t1 :=
    if t.roots rootID then t
    else { t with roots := fun x => if x = rootID then true else t.roots x,
                  orderedRoots := t.orderedRoots ++ [rootID] }
  match t1.calls rootID with
  | some _ => t1
  | none => setCall t1 rootID emptyFunctionCall

/-- Per-entry effect of the call upsert block of ObserveRequest: set the
function name, mark the call running and not suspended, fill the creation
and expiration times from the proto (falling back to now for a zero
creation time), and append a fresh roundtrip to the timeline. -/
def requestEntryUpdate (n : FunctionCall) (now : Nat) (req : RunRequest) : FunctionCall :=
  let n := { n with lastFunction := req.function, running := true, suspended := false }
  let n :=
    match req.creationTime with
    | some ct => { n with creationTime := ct }
    | none => n
  let n := if n.creationTime = 0 then { n with creationTime := now } else n
  let n :=
    match req.expirationTime with
    | some et => { n with expirationTime := et }
    | none => n
  { n with timeline := n.timeline ++ [freshRoundtrip now req] }

/-- Call upsert block of ObserveRequest applied to the calls map. -/
def upsertEntry (t : TUI) (now : Nat) (req : RunRequest) : TUI :=
  setCall t req.dispatchId (requestEntryUpdate (getCall t req.dispatchId) now req)

/-- Parent upsert block of ObserveRequest: a non-empty parent id must be
present in the calls map or equal to the root id, otherwise the Go code
panics (modelled as none); the child id is added to the parent's ordered
children on first sight. -/
def linkParent (t : TUI) (rootID parentID id : DispatchID) : Option TUI :=
  if parentID = "" then some t
  else
    match t.calls parentID with
    | some parent => some (setCall t parentID (linkChild parent id))
    | none =>
        if parentID = rootID then some (setCall t parentID (linkChild emptyFunctionCall id))
        else none

/-- Embeds ObserveRequest from cli/run_default.go as the composition of
its three blocks: upsert the root, upsert the function call, upsert the
parent and link its child. Returns none exactly where the Go code panics
(a non-empty parent id that is neither in the calls map at the check
point nor equal to the root id). -/
def ObserveRequest (t : TUI) (now : Nat) (req : RunRequest) : Option TUI :=
  linkParent (upsertEntry (upsertRoot t req.rootDispatchId) now req)
    req.rootDispatchId req.parentDispatchId req.dispatchId

/-- Status switch of ObserveResponse: OK is a noop, INCOMPATIBLE_STATE
resets the entry keeping only the function name, anything else counts a
failure. -/
def applyStatus (n : FunctionCall) (resp : RunResponse) : FunctionCall :=
  match resp.status with
  | .ok => n
  | .incompatibleState => { emptyFunctionCall with lastFunction := n.lastFunction }
  | _ => { n with failures := n.failures + 1 }

/-- Directive switch of ObserveResponse: an Exit records the status and
terminality, a tail call resets the entry keeping only the new function
name, a non-OK exit captures the error text; a Poll suspends and counts. -/
def applyDirective (n : FunctionCall) (resp : RunResponse) : FunctionCall :=
  match resp.directive with
  | .exit e =>
      let n := { n with lastStatus := resp.status, done := terminalStatus resp.status }
      match e.tailCall with
      | some tc => { emptyFunctionCall with lastFunction := tc.function }
      | none =>
          if resp.status != Status.ok then
            match e.result with
            | some result =>
                match result.error with
                | some fe =>
                    if fe.type != "" then
                      { n with lastError := some (if fe.message = "" then fe.type
                                                  else fe.type ++ ": " ++ fe.message) }
                    else n
                | none => n
            | none => n
          else n
  | .poll _ => { n with suspended := true, polls := n.polls + 1 }
  | .absent => n

/-- In-place mutation of the most recent roundtrip by ObserveResponse:
stamp the response time, proto and error, and record the HTTP status only
on the non-proto path (res nil, httpRes present). -/
def stampRoundtrip (rt : Roundtrip) (now : Nat) (err : Option String)
    (httpRes : Option Nat) (res : Option RunResponse) : Roundtrip :=
  let resp := { rt.response with ts := now, proto := res, err := err }
  let resp :=
    match res, httpRes with
    | Option.none, some code => { resp with httpStatus := code }
    | _, _ => resp
  { rt with response := resp }

/-- Unconditional head of ObserveResponse on the entry: replace the last
timeline element by its stamped version, clear the transient error and
status, and mark the call not running. -/
def responseBase (n : FunctionCall) (now : Nat) (err : Option String)
    (httpRes : Option Nat) (res : Option RunResponse) (rt : Roundtrip) : FunctionCall :=
  let n := { n with timeline := n.timeline.dropLast ++ [stampRoundtrip rt now err httpRes res] }
  { n with lastError := Option.none, lastStatus := Status.unspecified, running := false }

/-- Branching body of ObserveResponse: the proto path applies the status
and directive switches; the non-proto HTTP path counts a failure, records
the status-code error and derives done from terminalHTTPStatusCode; the
error-only path counts a failure and records the error. -/
def responseApply (n : FunctionCall) (err : Option String) (httpRes : Option Nat)
    (res : Option RunResponse) : FunctionCall :=
  match res with
  | some resp => applyDirective (applyStatus n resp) resp
  | none =>
      match httpRes with
      | some code =>
          { n with failures := n.failures + 1,
                   lastError := some ("unexpected HTTP status code " ++ toString code),
                   done := terminalHTTPStatusCode code }
      | none =>
          match err with
          | some e => { n with failures := n.failures + 1, lastError := some e }
          | none => n

/-- Tail of ObserveResponse: set doneTime once, on the transition into
done. -/
def finishDone (n : FunctionCall) (now : Nat) : FunctionCall :=
  if n.done && n.doneTime == 0 then { n with doneTime := now } else n

/-- Per-entry effect of ObserveResponse, composed of its statement blocks:
stamp the most recent roundtrip, clear the transient fields, apply the
branching body, and set doneTime on the transition into done. Returns
none exactly where the Go code panics: the unguarded read of the last
timeline entry when the entry's timeline is empty. -/
def responseEntryUpdate (n : FunctionCall) (now : Nat) (err : Option String)
    (httpRes : Option Nat) (res : Option RunResponse) : Option FunctionCall :=
  match n.timeline.getLast? with
  | none => none
  | some rt =>
      some (finishDone (responseApply (responseBase n now err httpRes res rt) err httpRes res) now)

/-- Embeds ObserveResponse from cli/run_default.go: update the entry of
the request's dispatch id in place; everything else in the model is left
untouched. -/
def ObserveResponse (t : TUI) (now : Nat) (req : RunRequest) (err : Option String)
    (httpRes : Option Nat) (res : Option RunResponse) : Option TUI :=
  match responseEntryUpdate (getCall t req.dispatchId) now err httpRes res with
  | none => none
  | some n => some (setCall t req.dispatchId n)

/-- Render styles of cli/tui.go, used by the status function. -/
inductive Style where
  | pendingStyle
  | suspendedStyle
  | okStyle
  | errorStyle
  | retryStyle
  deriving DecidableEq, Repr

/-- Pending icon of the functions tab. -/
def pendingIcon : String := "•"

/-- Success icon of the functions tab. -/
def successIcon : String := "✔"

/-- Failure icon of the functions tab. -/
def failureIcon : String := "✗"

/-- Embeds the status method of functionCall in cli/run_default.go. It
returns the possibly mutated entry (the expiry branch writes lastError,
done and doneTime through the receiver) together with the chosen style,
icon and status text. -/
def FunctionCall.status (n : FunctionCall) (now : Nat) :
    FunctionCall × Style × String × String :=
  let styled : FunctionCall × Style × String :=
    if n.running then (n, Style.pendingStyle, pendingIcon)
    else if n.suspended then (n, Style.suspendedStyle, pendingIcon)
    else if n.done then
      if n.lastStatus = Status.ok then (n, Style.okStyle, successIcon)
      else (n, Style.errorStyle, failureIcon)
    else if n.expirationTime != 0 && decide (n.expirationTime < now) then
      ({ n with lastError := some "Expired", done := true, doneTime := n.expirationTime },
        Style.errorStyle, failureIcon)
    else if n.failures > 0 then (n, Style.retryStyle, pendingIcon)
    else (n, Style.pendingStyle, pendingIcon)
  let n2 := styled.1
  let txt :=
    if n2.running then "Running"
    else if n2.suspended then "Suspended"
    else
      match n2.lastError with
      | some e => e
      | none =>
          if n2.lastStatus != Status.unspecified then statusString n2.lastStatus
          else "Pending"
  (n2, styled.2.1, styled.2.2, txt)

/-- Embeds the attempt method of functionCall in cli/run_default.go. -/
def FunctionCall.attempt (n : FunctionCall) : Int :=
  (n.timeline.length : Int) - (n.polls : Int) + (if n.suspended then 1 else 0)

/-- One public operation on the observer model. -/
inductive Op where
  | request (now : Nat) (req : RunRequest)
  | response (now : Nat) (req : RunRequest) (err : Option String)
      (httpRes : Option Nat) (res : Option RunResponse)

/-- Applies one observer operation; none propagates a panic. -/
def applyOp (t : TUI) : Op → Option TUI
  | Op.request now req => ObserveRequest t now req
  | Op.response now req err httpRes res => ObserveResponse t now req err httpRes res

/-- States of the observer model reachable from the zero value by
non-panicking operations. -/
inductive Reachable : TUI → Prop where
  | init : Reachable initTUI
  | step {t t2 : TUI} {op : Op} : Reachable t → applyOp t op = some t2 → Reachable t2

/-- Reply of the bridge to the long-poll GET; none models a transport
error from client.Do. -/
structure BridgeReply where
  statusCode : Nat
  requestIdHeader : String
  deriving DecidableEq, Repr

/-- Error classification produced by poll in cli/run.go. -/
inductive PollError where
  | auth
  | transient (msg : String)
  deriving DecidableEq, Repr

/-- Embeds poll from cli/run.go: 200 delivers the X-Request-Id header and
the response; 401 is the terminal auth error; 504 is the benign no-work
signal returning all-nil; any other status and any transport failure are
transient errors. -/
def poll (reply : Option BridgeReply) : String × Option BridgeReply × Option PollError :=
  match reply with
  | none => ("", Option.none, some (PollError.transient "failed to contact Dispatch API"))
  | some r =>
      if r.statusCode != 200 then
        if r.statusCode = 401 then ("", Option.none, some PollError.auth)
        else if r.statusCode = 504 then ("", Option.none, Option.none)
        else ("", Option.none,
              some (PollError.transient ("response code " ++ toString r.statusCode)))
      else (r.requestIdHeader, some r, Option.none)

/-- Action taken by one iteration of the poller loop in runCommand. -/
inductive PollerAction where
  | invoke (requestId : String)
  | continueNoWork
  | sleepRetry
  | stop
  deriving DecidableEq, Repr

/-- Embeds the dispatch on the poll result inside the poller loop of
runCommand in cli/run.go: an auth error stops the poller, any other error
sleeps and retries, a nil response loops again, and only a delivered
response increments successfulPolls (the returned Bool) and spawns an
invocation goroutine. -/
def pollerStep (requestId : String) (res : Option BridgeReply) (err : Option PollError) :
    PollerAction × Bool :=
  match err with
  | some PollError.auth => (PollerAction.stop, false)
  | some (PollError.transient _) => (PollerAction.sleepRetry, false)
  | none =>
      match res with
      | none => (PollerAction.continueNoWork, false)
      | some _ => (PollerAction.invoke requestId, true)

/-- Structural model of strings.HasPrefix for the environment functions. -/
def hasPrefix (v p : String) : Bool :=
  p.data.isPrefixOf v.data

/-- Embeds withoutEnv from cli/run.go: slices.DeleteFunc removing every
entry that starts with one of the given prefixes. -/
def withoutEnv (env : List String) (prefixes : List String) : List String :=
  env.filter (fun v => !(prefixes.any (fun p => hasPrefix v p)))

/-- Embeds the child environment construction of runCommand in cli/run.go:
the caller environment without DISPATCH_VERIFICATION_KEY= entries,
followed by the three session variables. -/
def childEnv (environ : List String) (apiKey sessionId localEndpoint : String) :
    List String :=
  withoutEnv environ ["DISPATCH_VERIFICATION_KEY="] ++
    ["DISPATCH_API_KEY=" ++ apiKey,
     "DISPATCH_ENDPOINT_URL=bridge://" ++ sessionId,
     "DISPATCH_ENDPOINT_ADDR=" ++ localEndpoint]

/-- Invariant of the observer model: every entry's children set mirrors
its ordered-children sequence, and that sequence has no duplicates. -/
def ChildInv (t : TUI) : Prop :=
  ∀ id, (getCall t id).children = (getCall t id).orderedChildren ∧
    (getCall t id).orderedChildren.Nodup

/-! Concrete fixtures: a small set of requests, responses and model states
used to evaluate the operations on explicit inputs. -/

/-- Concrete child call request under root a. -/
def reqChild : RunRequest :=
  { function := "c", dispatchId := "c", rootDispatchId := "a", parentDispatchId := "a",
    creationTime := Option.none, expirationTime := Option.none,
    directive := RunRequestDirective.input }

/-- Concrete root call request with id a. -/
def reqA : RunRequest :=
  { function := "f", dispatchId := "a", rootDispatchId := "a", parentDispatchId := "",
    creationTime := Option.none, expirationTime := Option.none,
    directive := RunRequestDirective.input }

/-- Concrete request carrying an expiration time. -/
def reqExp : RunRequest :=
  { function := "g", dispatchId := "x", rootDispatchId := "x", parentDispatchId := "",
    creationTime := Option.none, expirationTime := some 1,
    directive := RunRequestDirective.input }

/-- Concrete request whose parent id equals its own dispatch id and is
absent from the model, while differing from the root id. -/
def reqSelfParent : RunRequest :=
  { function := "h", dispatchId := "x", rootDispatchId := "r", parentDispatchId := "x",
    creationTime := Option.none, expirationTime := Option.none,
    directive := RunRequestDirective.input }

/-- Concrete Exit response with a tail call to function b. -/
def tailCallResponse : RunResponse :=
  { status := Status.ok,
    directive := RunResponseDirective.exit
      { result := Option.none, tailCall := some { function := "b" } } }

/-- Concrete Exit response with OK status and no tail call. -/
def okExitResponse : RunResponse :=
  { status := Status.ok,
    directive := RunResponseDirective.exit
      { result := Option.none, tailCall := Option.none } }

/-- Concrete Poll response with OK status. -/
def pollResponse : RunResponse :=
  { status := Status.ok,
    directive := RunResponseDirective.poll { coroutineState := "" } }

/-- Concrete Poll response carrying the INCOMPATIBLE_STATE status. -/
def pollIncompatibleResponse : RunResponse :=
  { status := Status.incompatibleState,
    directive := RunResponseDirective.poll { coroutineState := "" } }

/-- Concrete response carrying the INCOMPATIBLE_STATE status and no
directive. -/
def incompatibleResponse : RunResponse :=
  { status := Status.incompatibleState, directive := RunResponseDirective.absent }

/-- Model state after observing reqA at time 1. -/
def stateA1 : TUI := (ObserveRequest initTUI 1 reqA).getD initTUI

/-- Model state after a tail-call response to reqA at time 2. -/
def stateTail2 : TUI :=
  (ObserveResponse stateA1 2 reqA Option.none Option.none (some tailCallResponse)).getD initTUI

/-- Model state after an INCOMPATIBLE_STATE response to reqA at time 2. -/
def stateIncompat2 : TUI :=
  (ObserveResponse stateA1 2 reqA Option.none Option.none (some incompatibleResponse)).getD initTUI

/-- Model state after an OK Exit response to reqA at time 2. -/
def stateOk2 : TUI :=
  (ObserveResponse stateA1 2 reqA Option.none Option.none (some okExitResponse)).getD initTUI

/-- Model state after re-observing reqA at time 3 on top of the finished
call (session id reuse). -/
def stateRevived3 : TUI := (ObserveRequest stateOk2 3 reqA).getD initTUI

/-- Model state after a Poll response to reqA at time 2. -/
def statePoll2 : TUI :=
  (ObserveResponse stateA1 2 reqA Option.none Option.none (some pollResponse)).getD initTUI

/-- Model state after the resumption request of reqA at time 3. -/
def stateResume3 : TUI := (ObserveRequest statePoll2 3 reqA).getD initTUI

/-- Model state after a Poll directive with INCOMPATIBLE_STATE status at
time 4, on top of the resumed call. -/
def statePollIncompat4 : TUI :=
  (ObserveResponse stateResume3 4 reqA Option.none Option.none
    (some pollIncompatibleResponse)).getD initTUI

/-- Model state after observing the expiring request at time 1. -/
def stateExp1 : TUI := (ObserveRequest initTUI 1 reqExp).getD initTUI

/-- Model state after observing the child request at time 1. -/
def stateChild1 : TUI := (ObserveRequest initTUI 1 reqChild).getD initTUI

/-! Helper lemmas about the map primitives and the stages of the observer
operations. -/

theorem getCall_setCall_same (t : TUI) (id : DispatchID) (n : FunctionCall) :
    getCall (setCall t id n) id = n := by
  simp [getCall, setCall]

theorem getCall_setCall_other (t : TUI) (id x : DispatchID) (n : FunctionCall)
    (h : x ≠ id) : getCall (setCall t id n) x = getCall t x := by
  simp [getCall, setCall, h]

theorem getCall_upsertRoot (t : TUI) (r x : DispatchID) :
    getCall (upsertRoot t r) x = getCall t x := by
  unfold upsertRoot
  split <;> dsimp only <;> split
  all_goals try rfl
  all_goals rename_i hnone
  all_goals by_cases hx : x = r
  all_goals simp_all [getCall, setCall]

theorem calls_setCall_same (t : TUI) (id : DispatchID) (n : FunctionCall) :
    (setCall t id n).calls id = some n := by
  simp [setCall]

theorem calls_setCall_other (t : TUI) (id x : DispatchID) (n : FunctionCall)
    (h : x ≠ id) : (setCall t id n).calls x = t.calls x := by
  simp [setCall, h]

theorem calls_upsertRoot_other (t : TUI) (r x : DispatchID) (h : x ≠ r) :
    (upsertRoot t r).calls x = t.calls x := by
  unfold upsertRoot
  split <;> dsimp only <;> split
  all_goals simp_all [setCall, h]

theorem calls_upsertRoot_isSome (t : TUI) (r : DispatchID) :
    ((upsertRoot t r).calls r).isSome = true := by
  unfold upsertRoot
  split <;> dsimp only <;> split
  all_goals simp_all [setCall]

theorem calls_upsertEntry_isSome (t : TUI) (now : Nat) (req : RunRequest) :
    ((upsertEntry t now req).calls req.dispatchId).isSome = true := by
  simp [upsertEntry, setCall]

theorem calls_upsertEntry_other (t : TUI) (now : Nat) (req : RunRequest)
    (x : DispatchID) (h : x ≠ req.dispatchId) :
    (upsertEntry t now req).calls x = t.calls x := by
  simp [upsertEntry, setCall, h]

theorem getCall_upsertEntry_same (t : TUI) (now : Nat) (req : RunRequest) :
    getCall (upsertEntry t now req) req.dispatchId =
      requestEntryUpdate (getCall t req.dispatchId) now req := by
  simp [upsertEntry, getCall_setCall_same]

theorem getCall_upsertEntry_other (t : TUI) (now : Nat) (req : RunRequest)
    (x : DispatchID) (h : x ≠ req.dispatchId) :
    getCall (upsertEntry t now req) x = getCall t x := by
  simp [upsertEntry, getCall, setCall, h]

theorem requestEntryUpdate_fields (n : FunctionCall) (now : Nat) (req : RunRequest) :
    (requestEntryUpdate n now req).timeline = n.timeline ++ [freshRoundtrip now req] ∧
    (requestEntryUpdate n now req).polls = n.polls ∧
    (requestEntryUpdate n now req).suspended = false ∧
    (requestEntryUpdate n now req).running = true ∧
    (requestEntryUpdate n now req).lastFunction = req.function ∧
    (requestEntryUpdate n now req).done = n.done ∧
    (requestEntryUpdate n now req).children = n.children ∧
    (requestEntryUpdate n now req).orderedChildren = n.orderedChildren := by
  unfold requestEntryUpdate
  rcases req.creationTime with _ | ct <;> rcases req.expirationTime with _ | et <;>
    dsimp only <;> split <;> simp

theorem linkChild_fields (p : FunctionCall) (i : DispatchID) :
    (linkChild p i).timeline = p.timeline ∧ (linkChild p i).polls = p.polls ∧
    (linkChild p i).suspended = p.suspended ∧ (linkChild p i).running = p.running ∧
    (linkChild p i).done = p.done := by
  unfold linkChild
  split <;> simp

theorem attempt_linkChild (p : FunctionCall) (i : DispatchID) :
    (linkChild p i).attempt = p.attempt := by
  unfold FunctionCall.attempt linkChild
  split <;> simp

theorem linkChild_count (p : FunctionCall) (i : DispatchID)
    (hsync : p.children = p.orderedChildren) (hnd : p.orderedChildren.Nodup) :
    (linkChild p i).children = (linkChild p i).orderedChildren ∧
    (linkChild p i).orderedChildren.Nodup ∧
    (linkChild p i).orderedChildren.count i = 1 := by
  unfold linkChild
  by_cases hc : p.children.contains i = true
  · have hmem : i ∈ p.orderedChildren := by
      rw [← hsync]
      simpa using hc
    rw [if_pos hc]
    exact ⟨hsync, hnd, List.count_eq_one_of_mem hnd hmem⟩
  · have hmem : i ∉ p.orderedChildren := by
      rw [← hsync]
      simpa using hc
    rw [if_neg hc]
    refine ⟨by simp [hsync], ?_, ?_⟩
    · simp [List.nodup_append, hnd, hmem]
    · simp [List.count_append, List.count_eq_zero_of_not_mem hmem]

theorem linkParent_cases {t t2 : TUI} {r p i : DispatchID}
    (h : linkParent t r p i = some t2) (x : DispatchID) :
    getCall t2 x = getCall t x ∨
      (x = p ∧ getCall t2 x = linkChild (getCall t x) i ∧
        (t2.calls x).isSome = true) := by
  unfold linkParent at h
  split at h
  · cases h
    exact Or.inl rfl
  · split at h
    · rename_i parent hsome
      cases h
      by_cases hx : x = p
      · subst hx
        refine Or.inr ⟨rfl, ?_, ?_⟩
        · rw [getCall_setCall_same]
          have : getCall t x = parent := by simp [getCall, hsome]
          rw [this]
        · simp [setCall]
      · exact Or.inl (getCall_setCall_other _ _ _ _ hx)
    · split at h
      · rename_i hnone hpr
        cases h
        by_cases hx : x = p
        · subst hx
          refine Or.inr ⟨rfl, ?_, ?_⟩
          · rw [getCall_setCall_same]
            have : getCall t x = emptyFunctionCall := by simp [getCall, hnone]
            rw [this]
          · simp [setCall]
        · exact Or.inl (getCall_setCall_other _ _ _ _ hx)
      · cases h

theorem linkParent_eq_none_iff (t : TUI) (r p i : DispatchID) :
    linkParent t r p i = none ↔ (p ≠ "" ∧ t.calls p = none ∧ p ≠ r) := by
  unfold linkParent
  split
  · rename_i hp
    simp [hp]
  · rename_i hp
    split
    · rename_i parent hsome
      simp [hp, hsome]
    · rename_i hnone
      split
      · rename_i hpr
        simp [hp, hnone, hpr]
      · rename_i hpr
        simp [hp, hnone, hpr]

theorem observeResponse_some {t t2 : TUI} {now : Nat} {req : RunRequest}
    {err : Option String} {httpRes : Option Nat} {res : Option RunResponse}
    (h : ObserveResponse t now req err httpRes res = some t2) :
    ∃ n2, responseEntryUpdate (getCall t req.dispatchId) now err httpRes res = some n2 ∧
      t2 = setCall t req.dispatchId n2 := by
  unfold ObserveResponse at h
  split at h
  · cases h
  · rename_i n2 hn2
    cases h
    exact ⟨n2, hn2, rfl⟩

theorem responseEntryUpdate_some_eq {n : FunctionCall} {now : Nat} {err : Option String}
    {httpRes : Option Nat} {res : Option RunResponse} {n2 : FunctionCall}
    (h : responseEntryUpdate n now err httpRes res = some n2) :
    ∃ rt, n.timeline.getLast? = some rt ∧
      n2 = finishDone (responseApply (responseBase n now err httpRes res rt) err httpRes res)
        now := by
  unfold responseEntryUpdate at h
  rcases hl : n.timeline.getLast? with _ | rt <;> rw [hl] at h
  · cases h
  · exact ⟨rt, rfl, (Option.some_inj.mp h).symm⟩

theorem responseBase_fields (n : FunctionCall) (now : Nat) (err : Option String)
    (httpRes : Option Nat) (res : Option RunResponse) (rt : Roundtrip) :
    (responseBase n now err httpRes res rt).timeline =
      n.timeline.dropLast ++ [stampRoundtrip rt now err httpRes res] ∧
    (responseBase n now err httpRes res rt).running = false ∧
    (responseBase n now err httpRes res rt).polls = n.polls ∧
    (responseBase n now err httpRes res rt).suspended = n.suspended ∧
    (responseBase n now err httpRes res rt).failures = n.failures ∧
    (responseBase n now err httpRes res rt).done = n.done ∧
    (responseBase n now err httpRes res rt).doneTime = n.doneTime ∧
    (responseBase n now err httpRes res rt).children = n.children ∧
    (responseBase n now err httpRes res rt).orderedChildren = n.orderedChildren ∧
    (responseBase n now err httpRes res rt).lastFunction = n.lastFunction := by
  simp [responseBase]

theorem finishDone_fields (n : FunctionCall) (now : Nat) :
    (finishDone n now).running = n.running ∧ (finishDone n now).suspended = n.suspended ∧
    (finishDone n now).polls = n.polls ∧ (finishDone n now).timeline = n.timeline ∧
    (finishDone n now).children = n.children ∧
    (finishDone n now).orderedChildren = n.orderedChildren ∧
    (finishDone n now).done = n.done ∧ (finishDone n now).lastError = n.lastError ∧
    (finishDone n now).lastStatus = n.lastStatus ∧
    (finishDone n now).lastFunction = n.lastFunction ∧
    (finishDone n now).failures = n.failures := by
  unfold finishDone
  split <;> simp

theorem attempt_finishDone (n : FunctionCall) (now : Nat) :
    (finishDone n now).attempt = n.attempt := by
  unfold FunctionCall.attempt finishDone
  split <;> simp

theorem applyStatus_fields (n : FunctionCall) (resp : RunResponse)
    (h : resp.status ≠ Status.incompatibleState) :
    (applyStatus n resp).timeline = n.timeline ∧
    (applyStatus n resp).polls = n.polls ∧
    (applyStatus n resp).suspended = n.suspended ∧
    (applyStatus n resp).running = n.running ∧
    (applyStatus n resp).done = n.done ∧
    (applyStatus n resp).doneTime = n.doneTime ∧
    (applyStatus n resp).children = n.children ∧
    (applyStatus n resp).orderedChildren = n.orderedChildren ∧
    (applyStatus n resp).lastFunction = n.lastFunction := by
  unfold applyStatus
  cases hs : resp.status <;> simp_all

theorem applyStatus_running (n : FunctionCall) (resp : RunResponse)
    (h : n.running = false) : (applyStatus n resp).running = false := by
  unfold applyStatus
  cases hs : resp.status <;> simp_all [emptyFunctionCall]

theorem applyStatus_children (n : FunctionCall) (resp : RunResponse) :
    ((applyStatus n resp).children = n.children ∧
     (applyStatus n resp).orderedChildren = n.orderedChildren) ∨
    ((applyStatus n resp).children = [] ∧
     (applyStatus n resp).orderedChildren = []) := by
  unfold applyStatus
  cases hs : resp.status
  all_goals first
    | exact Or.inl ⟨rfl, rfl⟩
    | exact Or.inr ⟨rfl, rfl⟩

theorem applyDirective_poll (n : FunctionCall) (resp : RunResponse) (p : PollDirective)
    (hdir : resp.directive = RunResponseDirective.poll p) :
    applyDirective n resp = { n with suspended := true, polls := n.polls + 1 } := by
  obtain ⟨status, directive⟩ := resp
  dsimp only at hdir
  subst hdir
  rfl

theorem applyDirective_absent (n : FunctionCall) (resp : RunResponse)
    (hdir : resp.directive = RunResponseDirective.absent) :
    applyDirective n resp = n := by
  obtain ⟨status, directive⟩ := resp
  dsimp only at hdir
  subst hdir
  rfl

theorem applyDirective_tailCall (n : FunctionCall) (resp : RunResponse)
    (e : ExitDirective) (tc : TailCall)
    (hdir : resp.directive = RunResponseDirective.exit e) (htc : e.tailCall = some tc) :
    applyDirective n resp = { emptyFunctionCall with lastFunction := tc.function } := by
  obtain ⟨status, directive⟩ := resp
  dsimp only at hdir
  subst hdir
  obtain ⟨result, tailCall⟩ := e
  dsimp only at htc
  subst htc
  rfl

theorem applyDirective_exit_noTail_fields (n : FunctionCall) (resp : RunResponse)
    (e : ExitDirective) (hdir : resp.directive = RunResponseDirective.exit e)
    (htc : e.tailCall = Option.none) :
    (applyDirective n resp).timeline = n.timeline ∧
    (applyDirective n resp).polls = n.polls ∧
    (applyDirective n resp).suspended = n.suspended ∧
    (applyDirective n resp).running = n.running ∧
    (applyDirective n resp).children = n.children ∧
    (applyDirective n resp).orderedChildren = n.orderedChildren ∧
    (applyDirective n resp).done = terminalStatus resp.status ∧
    (applyDirective n resp).lastStatus = resp.status := by
  obtain ⟨status, directive⟩ := resp
  dsimp only at hdir
  subst hdir
  obtain ⟨result, tailCall⟩ := e
  dsimp only at htc
  subst htc
  unfold applyDirective
  dsimp only
  split
  · rcases result with _ | r
    · simp
    · rcases r with ⟨error⟩
      rcases error with _ | fe
      · simp
      · dsimp only
        split <;> simp
  · simp

theorem applyDirective_running (m : FunctionCall) (resp : RunResponse)
    (h : m.running = false) : (applyDirective m resp).running = false := by
  obtain ⟨status, directive⟩ := resp
  unfold applyDirective
  dsimp only
  cases directive with
  | exit e =>
      obtain ⟨result, tailCall⟩ := e
      dsimp only
      cases tailCall with
      | some tc => rfl
      | none =>
          dsimp only
          split
          · rcases result with _ | r
            · simpa using h
            · rcases r with ⟨error⟩
              rcases error with _ | fe
              · simpa using h
              · dsimp only
                split <;> simpa using h
          · simpa using h
  | poll p => simpa using h
  | absent => simpa using h

theorem applyDirective_children (m : FunctionCall) (resp : RunResponse) :
    ((applyDirective m resp).children = m.children ∧
     (applyDirective m resp).orderedChildren = m.orderedChildren) ∨
    ((applyDirective m resp).children = [] ∧
     (applyDirective m resp).orderedChildren = []) := by
  obtain ⟨status, directive⟩ := resp
  unfold applyDirective
  dsimp only
  cases directive with
  | exit e =>
      obtain ⟨result, tailCall⟩ := e
      dsimp only
      cases tailCall with
      | some tc => exact Or.inr ⟨rfl, rfl⟩
      | none =>
          dsimp only
          split
          · rcases result with _ | r
            · exact Or.inl ⟨rfl, rfl⟩
            · rcases r with ⟨error⟩
              rcases error with _ | fe
              · exact Or.inl ⟨rfl, rfl⟩
              · dsimp only
                split <;> exact Or.inl ⟨rfl, rfl⟩
          · exact Or.inl ⟨rfl, rfl⟩
  | poll p => exact Or.inl ⟨rfl, rfl⟩
  | absent => exact Or.inl ⟨rfl, rfl⟩

theorem responseApply_running (n : FunctionCall) (err : Option String)
    (httpRes : Option Nat) (res : Option RunResponse) (h : n.running = false) :
    (responseApply n err httpRes res).running = false := by
  unfold responseApply
  rcases res with _ | resp
  · rcases httpRes with _ | code
    · rcases err with _ | e <;> simpa using h
    · simpa using h
  · exact applyDirective_running _ resp (applyStatus_running n resp h)

theorem responseApply_children (n : FunctionCall) (err : Option String)
    (httpRes : Option Nat) (res : Option RunResponse) :
    ((responseApply n err httpRes res).children = n.children ∧
     (responseApply n err httpRes res).orderedChildren = n.orderedChildren) ∨
    ((responseApply n err httpRes res).children = [] ∧
     (responseApply n err httpRes res).orderedChildren = []) := by
  unfold responseApply
  rcases res with _ | resp
  · rcases httpRes with _ | code
    · rcases err with _ | e
      · exact Or.inl ⟨rfl, rfl⟩
      · exact Or.inl ⟨rfl, rfl⟩
    · exact Or.inl ⟨rfl, rfl⟩
  · rcases applyDirective_children (applyStatus n resp) resp with ⟨h1, h2⟩ | ⟨h1, h2⟩
    · rcases applyStatus_children n resp with ⟨g1, g2⟩ | ⟨g1, g2⟩
      · exact Or.inl ⟨h1.trans g1, h2.trans g2⟩
      · exact Or.inr ⟨h1.trans g1, h2.trans g2⟩
    · exact Or.inr ⟨h1, h2⟩

theorem responseApply_attempt (n : FunctionCall) (err : Option String)
    (httpRes : Option Nat) (res : Option RunResponse)
    (hstat : ∀ resp, res = some resp → resp.status ≠ Status.incompatibleState)
    (htail : ∀ resp e, res = some resp → resp.directive = RunResponseDirective.exit e →
        e.tailCall = Option.none)
    (hpoll : ∀ resp p, res = some resp → resp.directive = RunResponseDirective.poll p →
        n.suspended = false) :
    (responseApply n err httpRes res).attempt = n.attempt := by
  unfold responseApply
  rcases res with _ | resp
  · rcases httpRes with _ | code
    · rcases err with _ | e <;> simp [FunctionCall.attempt]
    · simp [FunctionCall.attempt]
  · dsimp only
    have hstat2 := hstat resp rfl
    have hsf := applyStatus_fields n resp hstat2
    rcases hdir : resp.directive with e | p | _
    · have htc := htail resp e rfl hdir
      have hdf := applyDirective_exit_noTail_fields (applyStatus n resp) resp e hdir htc
      unfold FunctionCall.attempt
      rw [hdf.1, hdf.2.1, hdf.2.2.1, hsf.1, hsf.2.1, hsf.2.2.1]
    · have hsp := hpoll resp p rfl hdir
      rw [applyDirective_poll _ resp p hdir]
      unfold FunctionCall.attempt
      simp [hsf.1, hsf.2.1, hsf.2.2.1, hsp]
      ring
    · rw [applyDirective_absent _ resp hdir]
      unfold FunctionCall.attempt
      rw [hsf.1, hsf.2.1, hsf.2.2.1]

theorem responseEntryUpdate_running {n n2 : FunctionCall} {now : Nat}
    {err : Option String} {httpRes : Option Nat} {res : Option RunResponse}
    (h : responseEntryUpdate n now err httpRes res = some n2) :
    n2.running = false := by
  obtain ⟨rt, hl, hn2⟩ := responseEntryUpdate_some_eq h
  subst hn2
  rw [(finishDone_fields _ now).1]
  exact responseApply_running _ err httpRes res (responseBase_fields n now err httpRes res rt).2.1

theorem responseEntryUpdate_children {n n2 : FunctionCall} {now : Nat}
    {err : Option String} {httpRes : Option Nat} {res : Option RunResponse}
    (h : responseEntryUpdate n now err httpRes res = some n2) :
    (n2.children = n.children ∧ n2.orderedChildren = n.orderedChildren) ∨
    (n2.children = [] ∧ n2.orderedChildren = []) := by
  obtain ⟨rt, hl, hn2⟩ := responseEntryUpdate_some_eq h
  subst hn2
  have hfin := finishDone_fields
    (responseApply (responseBase n now err httpRes res rt) err httpRes res) now
  have hbase := responseBase_fields n now err httpRes res rt
  rcases responseApply_children (responseBase n now err httpRes res rt) err httpRes res with
    ⟨h1, h2⟩ | ⟨h1, h2⟩
  · exact Or.inl ⟨(hfin.2.2.2.2.1).trans (h1.trans hbase.2.2.2.2.2.2.2.1),
      (hfin.2.2.2.2.2.1).trans (h2.trans hbase.2.2.2.2.2.2.2.2.1)⟩
  · exact Or.inr ⟨(hfin.2.2.2.2.1).trans h1, (hfin.2.2.2.2.2.1).trans h2⟩

theorem responseEntryUpdate_attempt {n n2 : FunctionCall} {now : Nat}
    {err : Option String} {httpRes : Option Nat} {res : Option RunResponse}
    (h : responseEntryUpdate n now err httpRes res = some n2)
    (hstat : ∀ resp, res = some resp → resp.status ≠ Status.incompatibleState)
    (htail : ∀ resp e, res = some resp → resp.directive = RunResponseDirective.exit e →
        e.tailCall = Option.none)
    (hpoll : ∀ resp p, res = some resp → resp.directive = RunResponseDirective.poll p →
        n.suspended = false) :
    n2.attempt = n.attempt := by
  obtain ⟨rt, hl, hn2⟩ := responseEntryUpdate_some_eq h
  subst hn2
  rw [attempt_finishDone]
  have hbase := responseBase_fields n now err httpRes res rt
  have hne : n.timeline ≠ [] := by
    intro hnil
    rw [hnil] at hl
    simp at hl
  have hpos : 0 < n.timeline.length := List.length_pos.mpr hne
  have hb_attempt : (responseBase n now err httpRes res rt).attempt = n.attempt := by
    unfold FunctionCall.attempt
    rw [hbase.1, hbase.2.2.1, hbase.2.2.2.1]
    have hlen : (n.timeline.dropLast ++ [stampRoundtrip rt now err httpRes res]).length
        = n.timeline.length := by
      simp [List.length_dropLast]
      omega
    rw [hlen]
  rw [← hb_attempt]
  exact responseApply_attempt _ err httpRes res hstat htail
    (fun resp p hres hdir => by
      rw [hbase.2.2.2.1]
      exact hpoll resp p hres hdir)

theorem responseEntryUpdate_poll {n n2 : FunctionCall} {now : Nat}
    {err : Option String} {httpRes : Option Nat} {resp : RunResponse} {p : PollDirective}
    (hdir : resp.directive = RunResponseDirective.poll p)
    (hstat : resp.status ≠ Status.incompatibleState)
    (h : responseEntryUpdate n now err httpRes (some resp) = some n2) :
    n2.suspended = true ∧ n2.running = false ∧ n2.polls = n.polls + 1 ∧
    n2.timeline.length = n.timeline.length := by
  obtain ⟨rt, hl, hn2⟩ := responseEntryUpdate_some_eq h
  subst hn2
  have hfin := finishDone_fields
    (responseApply (responseBase n now err httpRes (some resp) rt) err httpRes (some resp)) now
  have hbase := responseBase_fields n now err httpRes (some resp) rt
  have hsf := applyStatus_fields (responseBase n now err httpRes (some resp) rt) resp hstat
  have hx : responseApply (responseBase n now err httpRes (some resp) rt) err httpRes
      (some resp) =
      { applyStatus (responseBase n now err httpRes (some resp) rt) resp with
        suspended := true,
        polls := (applyStatus (responseBase n now err httpRes (some resp) rt) resp).polls
          + 1 } := by
    show applyDirective _ resp = _
    exact applyDirective_poll _ resp p hdir
  have hne : n.timeline ≠ [] := by
    intro hnil
    rw [hnil] at hl
    simp at hl
  have hpos : 0 < n.timeline.length := List.length_pos.mpr hne
  refine ⟨?_, ?_, ?_, ?_⟩
  · rw [hfin.2.1, hx]
  · rw [hfin.1, hx]
    show (applyStatus _ resp).running = false
    rw [hsf.2.2.2.1, hbase.2.1]
  · rw [hfin.2.2.1, hx]
    show (applyStatus _ resp).polls + 1 = n.polls + 1
    rw [hsf.2.1, hbase.2.2.1]
  · rw [hfin.2.2.2.1, hx]
    show (applyStatus _ resp).timeline.length = n.timeline.length
    rw [hsf.1, hbase.1]
    simp [List.length_dropLast]
    omega

theorem responseEntryUpdate_tailCall {n n2 : FunctionCall} {now : Nat}
    {err : Option String} {httpRes : Option Nat} {resp : RunResponse}
    {e : ExitDirective} {tc : TailCall}
    (hdir : resp.directive = RunResponseDirective.exit e) (htc : e.tailCall = some tc)
    (h : responseEntryUpdate n now err httpRes (some resp) = some n2) :
    n2 = { emptyFunctionCall with lastFunction := tc.function } := by
  obtain ⟨rt, hl, hn2⟩ := responseEntryUpdate_some_eq h
  subst hn2
  have hx : responseApply (responseBase n now err httpRes (some resp) rt) err httpRes
      (some resp) = { emptyFunctionCall with lastFunction := tc.function } := by
    show applyDirective _ resp = _
    exact applyDirective_tailCall _ resp e tc hdir htc
  rw [hx]
  rfl

theorem observeRequest_destruct {t t2 : TUI} {now : Nat} {req : RunRequest}
    (h : ObserveRequest t now req = some t2) :
    linkParent (upsertEntry (upsertRoot t req.rootDispatchId) now req)
      req.rootDispatchId req.parentDispatchId req.dispatchId = some t2 := h

theorem observeRequest_getCall_self {t t2 : TUI} {now : Nat} {req : RunRequest}
    (h : ObserveRequest t now req = some t2) :
    getCall t2 req.dispatchId = requestEntryUpdate (getCall t req.dispatchId) now req ∨
    getCall t2 req.dispatchId =
      linkChild (requestEntryUpdate (getCall t req.dispatchId) now req) req.dispatchId := by
  have h2 := linkParent_cases (observeRequest_destruct h) req.dispatchId
  have hmid : getCall (upsertEntry (upsertRoot t req.rootDispatchId) now req) req.dispatchId
      = requestEntryUpdate (getCall t req.dispatchId) now req := by
    rw [getCall_upsertEntry_same, getCall_upsertRoot]
  rcases h2 with h2 | ⟨hp, h2, _⟩
  · rw [h2, hmid]
    exact Or.inl rfl
  · rw [h2, hmid]
    exact Or.inr rfl

theorem observeRequest_getCall_other {t t2 : TUI} {now : Nat} {req : RunRequest}
    (h : ObserveRequest t now req = some t2) (x : DispatchID) (hx : x ≠ req.dispatchId) :
    getCall t2 x = getCall t x ∨
      (x = req.parentDispatchId ∧ getCall t2 x = linkChild (getCall t x) req.dispatchId) := by
  have h2 := linkParent_cases (observeRequest_destruct h) x
  have hmid : getCall (upsertEntry (upsertRoot t req.rootDispatchId) now req) x
      = getCall t x := by
    rw [getCall_upsertEntry_other _ _ _ _ hx, getCall_upsertRoot]
  rcases h2 with h2 | ⟨hp, h2, _⟩
  · exact Or.inl (h2.trans hmid)
  · refine Or.inr ⟨hp, ?_⟩
    rw [h2, hmid]

theorem attempt_requestEntryUpdate (n : FunctionCall) (now : Nat) (req : RunRequest) :
    n.attempt ≤ (requestEntryUpdate n now req).attempt := by
  have hf := requestEntryUpdate_fields n now req
  unfold FunctionCall.attempt
  rw [hf.1, hf.2.1, hf.2.2.1]
  rcases hs : n.suspended
  all_goals simp [List.length_append]
  all_goals omega

theorem childInv_request {t t2 : TUI} {now : Nat} {req : RunRequest}
    (hinv : ChildInv t) (h : ObserveRequest t now req = some t2) : ChildInv t2 := by
  intro x
  by_cases hx : x = req.dispatchId
  · subst hx
    have hf := requestEntryUpdate_fields (getCall t req.dispatchId) now req
    have hup : (requestEntryUpdate (getCall t req.dispatchId) now req).children =
        (requestEntryUpdate (getCall t req.dispatchId) now req).orderedChildren ∧
        (requestEntryUpdate (getCall t req.dispatchId) now req).orderedChildren.Nodup := by
      rw [hf.2.2.2.2.2.2.1, hf.2.2.2.2.2.2.2]
      exact hinv req.dispatchId
    rcases observeRequest_getCall_self h with h2 | h2 <;> rw [h2]
    · exact hup
    · obtain ⟨hsync, hnd, _⟩ := linkChild_count _ _ hup.1 hup.2
      exact ⟨hsync, hnd⟩
  · rcases observeRequest_getCall_other h x hx with h2 | ⟨hp, h2⟩ <;> rw [h2]
    · exact hinv x
    · obtain ⟨hsync, hnd, _⟩ := linkChild_count _ _ (hinv x).1 (hinv x).2
      exact ⟨hsync, hnd⟩

theorem childInv_response {t t2 : TUI} {now : Nat} {req : RunRequest}
    {err : Option String} {httpRes : Option Nat} {res : Option RunResponse}
    (hinv : ChildInv t) (h : ObserveResponse t now req err httpRes res = some t2) :
    ChildInv t2 := by
  obtain ⟨n2, hn2, ht2⟩ := observeResponse_some h
  subst ht2
  intro x
  by_cases hx : x = req.dispatchId
  · subst hx
    rw [getCall_setCall_same]
    rcases responseEntryUpdate_children hn2 with ⟨h1, h2⟩ | ⟨h1, h2⟩
    · rw [h1, h2]
      exact hinv _
    · rw [h1, h2]
      exact ⟨rfl, List.nodup_nil⟩
  · rw [getCall_setCall_other _ _ _ _ hx]
    exact hinv x

theorem childInv_reachable {t : TUI} (h : Reachable t) : ChildInv t := by
  induction h with
  | init =>
      intro x
      exact ⟨rfl, List.nodup_nil⟩
  | step hr hstep ih =>
      rename_i t t2 op
      cases op with
      | request now req => exact childInv_request ih hstep
      | response now req err httpRes res => exact childInv_response ih hstep

theorem suspendInv_reachable {t : TUI} (h : Reachable t) :
    ∀ id, (getCall t id).suspended = true → (getCall t id).running = false := by
  induction h with
  | init =>
      intro x hs
      simp [getCall, initTUI, emptyFunctionCall] at hs
  | step hr hstep ih =>
      rename_i t t2 op
      cases op with
      | request now req =>
          intro x hs
          by_cases hx : x = req.dispatchId
          · subst hx
            have hf := requestEntryUpdate_fields (getCall t req.dispatchId) now req
            rcases observeRequest_getCall_self hstep with h2 | h2 <;> rw [h2] at hs ⊢
            · rw [hf.2.2.1] at hs
              cases hs
            · have hlf := linkChild_fields
                (requestEntryUpdate (getCall t req.dispatchId) now req) req.dispatchId
              rw [hlf.2.2.1, hf.2.2.1] at hs
              cases hs
          · rcases observeRequest_getCall_other hstep x hx with h2 | ⟨hp, h2⟩ <;>
              rw [h2] at hs ⊢
            · exact ih x hs
            · have hlf := linkChild_fields (getCall t x) req.dispatchId
              rw [hlf.2.2.1] at hs
              rw [hlf.2.2.2.1]
              exact ih x hs
      | response now req err httpRes res =>
          intro x hs
          obtain ⟨n2, hn2, ht2⟩ := observeResponse_some hstep
          subst ht2
          by_cases hx : x = req.dispatchId
          · subst hx
            rw [getCall_setCall_same]
            exact responseEntryUpdate_running hn2
          · rw [getCall_setCall_other _ _ _ _ hx] at hs ⊢
            exact ih x hs

/-- C1 (corrected): terminalHTTPStatusCode classifies 4xx as terminal
except 408 and 429, and 5xx as terminal only for 501, but — contrary to
the claim — every code outside the 4xx and 5xx classes is TERMINAL (the
default switch branch returns true). -/
theorem terminal_http_classification (c : Nat) :
    (c / 100 = 4 → (terminalHTTPStatusCode c = true ↔ (c ≠ 408 ∧ c ≠ 429))) ∧
    (c / 100 = 5 → (terminalHTTPStatusCode c = true ↔ c = 501)) ∧
    (c / 100 ≠ 4 → c / 100 ≠ 5 → terminalHTTPStatusCode c = true) := by
  refine ⟨fun h4 => ?_, fun h5 => ?_, fun h4 h5 => ?_⟩
  · simp [terminalHTTPStatusCode, h4]
  · simp [terminalHTTPStatusCode, h5]
  · simp [terminalHTTPStatusCode, h4, h5]

/-- C1 witness: the classification applied to the concrete codes 404, 408
and 501. -/
theorem terminal_http_classification_witness :
    terminalHTTPStatusCode 404 = true ∧ terminalHTTPStatusCode 501 = true :=
  ⟨((terminal_http_classification 404).1 (by decide)).mpr (by decide),
   ((terminal_http_classification 501).2.1 (by decide)).mpr (by decide)⟩

/-- C1 counterexample: the claim asserts that every code outside the 4xx
and 5xx classes is non-terminal, but the code classifies 200 (and every
1xx, 2xx, 3xx code) as terminal. -/
theorem terminal_http_200_is_terminal :
    terminalHTTPStatusCode 200 = true ∧ terminalHTTPStatusCode 100 = true ∧
    terminalHTTPStatusCode 302 = true := by
  decide

/-- C9: a 504 reply to the long-poll makes poll return a nil response and
a nil error; the poller loop then takes the continue branch, spawns no
invocation goroutine and does not increment successfulPolls. -/
theorem poll_504_no_spurious_invocation (reply : BridgeReply)
    (h : reply.statusCode = 504) :
    poll (some reply) = ("", Option.none, Option.none) ∧
    pollerStep (poll (some reply)).1 (poll (some reply)).2.1 (poll (some reply)).2.2 =
      (PollerAction.continueNoWork, false) := by
  simp [poll, h, pollerStep]

/-- C9 witness: the 504 case evaluated on a concrete reply. -/
theorem poll_504_no_spurious_invocation_witness :
    poll (some { statusCode := 504, requestIdHeader := "r1" }) =
      ("", Option.none, Option.none) ∧
    pollerStep "" Option.none Option.none = (PollerAction.continueNoWork, false) :=
  ⟨(poll_504_no_spurious_invocation { statusCode := 504, requestIdHeader := "r1" } rfl).1,
   (poll_504_no_spurious_invocation { statusCode := 504, requestIdHeader := "r1" } rfl).2⟩

/-- C10: ObserveResponse reads the last timeline entry of the addressed
call with no emptiness guard; it panics (none) exactly when that entry's
timeline is empty — in particular the panic cannot occur when a prior
ObserveRequest appended a roundtrip that no reset removed, and it does
occur for any id whose timeline is empty, including ids never observed. -/
theorem observeResponse_panics_iff_empty_timeline (t : TUI) (now : Nat)
    (req : RunRequest) (err : Option String) (httpRes : Option Nat)
    (res : Option RunResponse) :
    ObserveResponse t now req err httpRes res = none ↔
      (getCall t req.dispatchId).timeline = [] := by
  unfold ObserveResponse responseEntryUpdate
  rcases hl : (getCall t req.dispatchId).timeline.getLast? with _ | rt
  · rw [List.getLast?_eq_none_iff] at hl
    simp [hl]
  · have : (getCall t req.dispatchId).timeline ≠ [] := by
      intro hnil
      rw [hnil] at hl
      simp at hl
    simp [hl, this]

/-- C8 counterexample: the claim asserts that every environment entry
matching the wildcard DISPATCH_VERIFICATION_KEY* is stripped, but the
code only strips entries of the exact variable DISPATCH_VERIFICATION_KEY
(prefix match on the text DISPATCH_VERIFICATION_KEY=), so the variable
DISPATCH_VERIFICATION_KEY_2 survives into the child environment. -/
theorem childEnv_keeps_verification_key_suffix_variables :
    childEnv ["DISPATCH_VERIFICATION_KEY_2=x", "DISPATCH_VERIFICATION_KEY=y"] "k" "s" "e" =
      ["DISPATCH_VERIFICATION_KEY_2=x",
       "DISPATCH_API_KEY=k",
       "DISPATCH_ENDPOINT_URL=bridge://s",
       "DISPATCH_ENDPOINT_ADDR=e"] := by
  decide

/-- C8 (amended): the child environment is the caller's environment with
exactly the entries whose text starts with DISPATCH_VERIFICATION_KEY=
removed (entries of wildcard variants such as DISPATCH_VERIFICATION_KEY_2
are kept), followed by exactly the three session entries DISPATCH_API_KEY,
DISPATCH_ENDPOINT_URL=bridge://session and DISPATCH_ENDPOINT_ADDR. -/
theorem childEnv_characterization (environ : List String)
    (apiKey sessionId localEndpoint : String) :
    childEnv environ apiKey sessionId localEndpoint =
      environ.filter (fun v => !(hasPrefix v "DISPATCH_VERIFICATION_KEY=")) ++
        ["DISPATCH_API_KEY=" ++ apiKey,
         "DISPATCH_ENDPOINT_URL=bridge://" ++ sessionId,
         "DISPATCH_ENDPOINT_ADDR=" ++ localEndpoint] := by
  simp [childEnv, withoutEnv]

/-- C2 counterexample: the claim asserts the tail-call reset does not
truncate the timeline, but the reset replaces the whole entry by a zero
value carrying only the new function name: the timeline length drops from
1 to 0. -/
theorem tail_call_truncates_timeline :
    (getCall stateA1 "a").timeline.length = 1 ∧
    (getCall stateTail2 "a").lastFunction = "b" ∧
    (getCall stateTail2 "a").timeline.length = 0 := by
  decide

/-- C2 (amended): an Exit directive carrying a tail call replaces the
whole entry by the zero-value functionCall with only the function name
set to the tail-call target: status, error, failures, polls and flags are
reset AND the timeline is truncated to empty. -/
theorem tail_call_resets_entry (t t2 : TUI) (now : Nat) (req : RunRequest)
    (err : Option String) (httpRes : Option Nat) (resp : RunResponse)
    (e : ExitDirective) (tc : TailCall)
    (hdir : resp.directive = RunResponseDirective.exit e)
    (htc : e.tailCall = some tc)
    (h : ObserveResponse t now req err httpRes (some resp) = some t2) :
    getCall t2 req.dispatchId = { emptyFunctionCall with lastFunction := tc.function } := by
  obtain ⟨n2, hn2, ht2⟩ := observeResponse_some h
  subst ht2
  rw [getCall_setCall_same]
  exact responseEntryUpdate_tailCall hdir htc hn2

/-- C2 witness: the tail-call reset evaluated on the concrete trace. -/
theorem tail_call_resets_entry_witness :
    getCall stateTail2 "a" = { emptyFunctionCall with lastFunction := "b" } :=
  tail_call_resets_entry stateA1 stateTail2 2 reqA Option.none Option.none
    tailCallResponse { result := Option.none, tailCall := some { function := "b" } }
    { function := "b" } rfl rfl rfl

/-- C3 counterexample: a call that has received no response yet is still
marked running, and the running branch of the status method shadows the
expiry branch: with expirationTime 1 in the past at render time 2, the
entry stays not done, keeps no error, and renders the pending icon with
status text Running. -/
theorem expiry_not_marked_while_running :
    (getCall stateExp1 "x").running = true ∧
    (getCall stateExp1 "x").done = false ∧
    (getCall stateExp1 "x").expirationTime = 1 ∧
    ((getCall stateExp1 "x").status 2).1.done = false ∧
    ((getCall stateExp1 "x").status 2).1.lastError = Option.none ∧
    ((getCall stateExp1 "x").status 2).2.2.1 = pendingIcon ∧
    ((getCall stateExp1 "x").status 2).2.2.2 = "Running" := by
  decide

/-- C3 (amended): for an entry that is not running, not suspended and not
done, with a non-zero expirationTime earlier than the render time, the
status method marks it done with lastError Expired, doneTime equal to the
expiration time, the error style and the failure icon. The marking does
NOT apply to entries still marked running (for example a call with no
response yet) or suspended, which the earlier branches capture. -/
theorem expiry_marks_done (n : FunctionCall) (now : Nat)
    (hrun : n.running = false) (hsusp : n.suspended = false) (hdone : n.done = false)
    (hexp : n.expirationTime ≠ 0) (hlt : n.expirationTime < now) :
    (n.status now).1.done = true ∧
    (n.status now).1.lastError = some "Expired" ∧
    (n.status now).1.doneTime = n.expirationTime ∧
    (n.status now).2.1 = Style.errorStyle ∧
    (n.status now).2.2.1 = failureIcon ∧
    (n.status now).2.2.2 = "Expired" := by
  unfold FunctionCall.status
  simp [hrun, hsusp, hdone, hexp, hlt]

/-- C3 witness: the expiry marking evaluated on a concrete expired entry. -/
theorem expiry_marks_done_witness :
    (({ emptyFunctionCall with expirationTime := 1 } : FunctionCall).status 2).1.done
      = true ∧
    (({ emptyFunctionCall with expirationTime := 1 } : FunctionCall).status 2).1.lastError
      = some "Expired" :=
  ⟨(expiry_marks_done { emptyFunctionCall with expirationTime := 1 } 2
      rfl rfl rfl (by decide) (by decide)).1,
   (expiry_marks_done { emptyFunctionCall with expirationTime := 1 } 2
      rfl rfl rfl (by decide) (by decide)).2.1⟩

/-- C4 counterexample: the claim asserts the displayed attempt count is
monotone non-decreasing over every operation sequence, but an
INCOMPATIBLE_STATE response resets the entry and drops the attempt count
from 1 back to 0. -/
theorem attempt_drops_on_incompatible_state :
    (getCall stateA1 "a").attempt = 1 ∧
    (getCall stateIncompat2 "a").attempt = 0 := by
  decide

/-- C4 (amended): the displayed attempt count (len(timeline) - polls,
plus one if suspended, which is the embedded attempt method) never
decreases on ObserveRequest; an ObserveResponse leaves every other entry
untouched and preserves the attempt of the addressed entry provided the
response does not reset it (no INCOMPATIBLE_STATE status, no tail call)
and does not deliver a Poll directive to an already suspended entry. -/
theorem attempt_monotone :
    (∀ t t2 now req, ObserveRequest t now req = some t2 →
        ∀ id, (getCall t id).attempt ≤ (getCall t2 id).attempt) ∧
    (∀ t t2 now req err httpRes res, ObserveResponse t now req err httpRes res = some t2 →
        ∀ id, id ≠ req.dispatchId → getCall t2 id = getCall t id) ∧
    (∀ t t2 now req err httpRes res, ObserveResponse t now req err httpRes res = some t2 →
        (∀ resp, res = some resp → resp.status ≠ Status.incompatibleState) →
        (∀ resp e, res = some resp → resp.directive = RunResponseDirective.exit e →
            e.tailCall = Option.none) →
        (∀ resp p, res = some resp → resp.directive = RunResponseDirective.poll p →
            (getCall t req.dispatchId).suspended = false) →
        (getCall t req.dispatchId).attempt ≤ (getCall t2 req.dispatchId).attempt) := by
  refine ⟨?_, ?_, ?_⟩
  · intro t t2 now req h id
    by_cases hx : id = req.dispatchId
    · subst hx
      rcases observeRequest_getCall_self h with h2 | h2 <;> rw [h2]
      · exact attempt_requestEntryUpdate _ now req
      · rw [attempt_linkChild]
        exact attempt_requestEntryUpdate _ now req
    · rcases observeRequest_getCall_other h id hx with h2 | ⟨hp, h2⟩ <;> rw [h2]
      rw [attempt_linkChild]
  · intro t t2 now req err httpRes res h id hid
    obtain ⟨n2, hn2, ht2⟩ := observeResponse_some h
    subst ht2
    exact getCall_setCall_other _ _ _ _ hid
  · intro t t2 now req err httpRes res h hstat htail hpoll
    obtain ⟨n2, hn2, ht2⟩ := observeResponse_some h
    subst ht2
    rw [getCall_setCall_same,
      responseEntryUpdate_attempt hn2 hstat htail hpoll]

/-- C4 witness: the monotonicity steps applied on the concrete trace of a
request followed by an OK Exit response. -/
theorem attempt_monotone_witness :
    (getCall initTUI "a").attempt ≤ (getCall stateA1 "a").attempt ∧
    (getCall stateA1 "a").attempt ≤ (getCall stateOk2 "a").attempt :=
  ⟨attempt_monotone.1 initTUI stateA1 1 reqA rfl "a",
   attempt_monotone.2.2 stateA1 stateOk2 2 reqA Option.none Option.none
     (some okExitResponse) rfl
     (fun resp hresp => by cases hresp; decide)
     (fun resp e hresp hdir => by cases hresp; cases hdir; rfl)
     (fun resp p hresp hdir => by cases hresp; cases hdir)⟩

/-- C5 counterexample: after the OK Exit response the entry is done; the
claim asserts running and done are never both true after the first
response, but a further ObserveRequest for the same id (session id reuse)
sets running without clearing done. -/
theorem revived_call_running_and_done :
    (getCall stateOk2 "a").running = false ∧
    (getCall stateOk2 "a").done = true ∧
    (getCall stateRevived3 "a").running = true ∧
    (getCall stateRevived3 "a").done = true := by
  decide

/-- C5 (amended): in every reachable model state suspended implies not
running, and every ObserveResponse leaves the addressed entry with
running=false (so running and done cannot both hold immediately after a
response); a later ObserveRequest for the same id may set running=true
while done remains true, because the request upsert never clears done. -/
theorem suspended_running_flags :
    (∀ t, Reachable t → ∀ id, (getCall t id).suspended = true →
        (getCall t id).running = false) ∧
    (∀ t t2 now req err httpRes res, ObserveResponse t now req err httpRes res = some t2 →
        (getCall t2 req.dispatchId).running = false) := by
  refine ⟨fun t ht => suspendInv_reachable ht, ?_⟩
  intro t t2 now req err httpRes res h
  obtain ⟨n2, hn2, ht2⟩ := observeResponse_some h
  subst ht2
  rw [getCall_setCall_same]
  exact responseEntryUpdate_running hn2

/-- C5 witness: evaluated on the concrete traces reaching the suspended
state and the responded state. -/
theorem suspended_running_flags_witness :
    (getCall statePoll2 "a").running = false ∧
    (getCall stateOk2 "a").running = false :=
  ⟨suspended_running_flags.1 statePoll2
     (Reachable.step
       (Reachable.step Reachable.init
         (rfl : applyOp initTUI (Op.request 1 reqA) = some stateA1))
       (rfl : applyOp stateA1
         (Op.response 2 reqA Option.none Option.none (some pollResponse))
           = some statePoll2))
     "a" (by decide),
   suspended_running_flags.2 stateA1 stateOk2 2 reqA Option.none Option.none
     (some okExitResponse) rfl⟩

/-- C6 counterexample: the claim asserts a Poll directive response always
increments polls and the following request retains the timeline, but a
Poll directive arriving with the INCOMPATIBLE_STATE status first resets
the entry: polls stays at 1 instead of becoming 2 and the timeline is
emptied. -/
theorem poll_incompatible_not_incrementing :
    (getCall stateResume3 "a").polls = 1 ∧
    (getCall stateResume3 "a").timeline.length = 2 ∧
    (getCall statePollIncompat4 "a").suspended = true ∧
    (getCall statePollIncompat4 "a").polls = 1 ∧
    (getCall statePollIncompat4 "a").timeline.length = 0 := by
  decide

/-- C6 (amended): an ObserveResponse whose RunResponse carries a Poll
directive and whose status is not INCOMPATIBLE_STATE leaves the entry
suspended, not running, with polls incremented and the timeline length
unchanged; the next ObserveRequest for the same id clears suspended, sets
running and appends exactly one roundtrip to the retained timeline. -/
theorem poll_suspends_and_resume (t t2 : TUI) (now : Nat) (req : RunRequest)
    (err : Option String) (httpRes : Option Nat) (resp : RunResponse) (p : PollDirective)
    (hdir : resp.directive = RunResponseDirective.poll p)
    (hstat : resp.status ≠ Status.incompatibleState)
    (h : ObserveResponse t now req err httpRes (some resp) = some t2) :
    (getCall t2 req.dispatchId).suspended = true ∧
    (getCall t2 req.dispatchId).running = false ∧
    (getCall t2 req.dispatchId).polls = (getCall t req.dispatchId).polls + 1 ∧
    (getCall t2 req.dispatchId).timeline.length =
      (getCall t req.dispatchId).timeline.length ∧
    (∀ now2 req2 t3, req2.dispatchId = req.dispatchId →
        ObserveRequest t2 now2 req2 = some t3 →
        (getCall t3 req.dispatchId).suspended = false ∧
        (getCall t3 req.dispatchId).running = true ∧
        (getCall t3 req.dispatchId).timeline =
          (getCall t2 req.dispatchId).timeline ++ [freshRoundtrip now2 req2]) := by
  obtain ⟨n2, hn2, ht2⟩ := observeResponse_some h
  subst ht2
  have hp := responseEntryUpdate_poll hdir hstat hn2
  refine ⟨?_, ?_, ?_, ?_, ?_⟩
  · rw [getCall_setCall_same]
    exact hp.1
  · rw [getCall_setCall_same]
    exact hp.2.1
  · rw [getCall_setCall_same]
    exact hp.2.2.1
  · rw [getCall_setCall_same]
    exact hp.2.2.2
  · intro now2 req2 t3 hid hreq
    have hself := observeRequest_getCall_self hreq
    rw [hid] at hself
    have hf := requestEntryUpdate_fields
      (getCall (setCall t req.dispatchId n2) req.dispatchId) now2 req2
    rcases hself with h3 | h3 <;> rw [h3]
    · exact ⟨hf.2.2.1, hf.2.2.2.1, by rw [hf.1]⟩
    · have hlf := linkChild_fields
        (requestEntryUpdate (getCall (setCall t req.dispatchId n2) req.dispatchId)
          now2 req2) req.dispatchId
      refine ⟨hlf.2.2.1.trans hf.2.2.1, hlf.2.2.2.1.trans hf.2.2.2.1, ?_⟩
      rw [hlf.1, hf.1]

/-- C6 witness: evaluated on the concrete poll and resumption trace. -/
theorem poll_suspends_and_resume_witness :
    (getCall statePoll2 "a").suspended = true ∧
    (getCall stateResume3 "a").running = true :=
  ⟨(poll_suspends_and_resume stateA1 statePoll2 2 reqA Option.none Option.none
      pollResponse { coroutineState := "" } rfl (by decide) rfl).1,
   ((poll_suspends_and_resume stateA1 statePoll2 2 reqA Option.none Option.none
      pollResponse { coroutineState := "" } rfl (by decide) rfl).2.2.2.2
        3 reqA stateResume3 rfl rfl).2.1⟩

/-- C7 counterexample: the claim asserts a panic whenever the parent id
is non-empty, absent from the model and different from the root id, but a
request whose parent id equals its own dispatch id does not panic: the
call's own entry is upserted before the parent lookup. -/
theorem self_parent_no_panic :
    (ObserveRequest initTUI 1 reqSelfParent).isSome = true ∧
    reqSelfParent.parentDispatchId ≠ "" ∧
    initTUI.calls reqSelfParent.parentDispatchId = Option.none ∧
    reqSelfParent.parentDispatchId ≠ reqSelfParent.rootDispatchId := by
  decide

/-- C7 (amended): ObserveRequest panics iff the parent id is non-empty,
absent from the model before the call, different from the root id AND
different from the call's own dispatch id (the root and the call itself
are inserted before the parent lookup); in every non-panicking reachable
case with a non-empty parent id different from the call id, the parent
entry exists afterwards and its ordered-children sequence contains the
child exactly once, however many requests for the same id are observed. -/
theorem parent_linking (t : TUI) (now : Nat) (req : RunRequest) :
    (ObserveRequest t now req = none ↔
      (req.parentDispatchId ≠ "" ∧ t.calls req.parentDispatchId = Option.none ∧
       req.parentDispatchId ≠ req.rootDispatchId ∧
       req.parentDispatchId ≠ req.dispatchId)) ∧
    (Reachable t → ∀ t2, ObserveRequest t now req = some t2 →
      req.parentDispatchId ≠ "" → req.parentDispatchId ≠ req.dispatchId →
      ((t2.calls req.parentDispatchId).isSome = true ∧
       (getCall t2 req.parentDispatchId).orderedChildren.count req.dispatchId = 1)) := by
  constructor
  · unfold ObserveRequest
    rw [linkParent_eq_none_iff]
    constructor
    · rintro ⟨hp, hnone, hpr⟩
      have hpi : req.parentDispatchId ≠ req.dispatchId := by
        intro hpi
        rw [hpi] at hnone
        have hsome := calls_upsertEntry_isSome (upsertRoot t req.rootDispatchId) now req
        rw [hnone] at hsome
        cases hsome
      refine ⟨hp, ?_, hpr, hpi⟩
      rw [calls_upsertEntry_other _ _ _ _ hpi, calls_upsertRoot_other _ _ _ hpr] at hnone
      exact hnone
    · rintro ⟨hp, hnone, hpr, hpi⟩
      refine ⟨hp, ?_, hpr⟩
      rw [calls_upsertEntry_other _ _ _ _ hpi, calls_upsertRoot_other _ _ _ hpr]
      exact hnone
  · intro hreach t2 h2 hp hpi
    have hinv := childInv_reachable hreach
    have hlp := observeRequest_destruct h2
    unfold linkParent at hlp
    rw [if_neg hp] at hlp
    rcases hcalls : (upsertEntry (upsertRoot t req.rootDispatchId) now req).calls
        req.parentDispatchId with _ | parent <;> rw [hcalls] at hlp
    · by_cases hpr : req.parentDispatchId = req.rootDispatchId
      · rw [if_pos hpr] at hlp
        obtain rfl := Option.some_inj.mp hlp
        constructor
        · rw [calls_setCall_same]
          rfl
        · rw [getCall_setCall_same]
          have hres := linkChild_count emptyFunctionCall req.dispatchId rfl List.nodup_nil
          exact hres.2.2
      · rw [if_neg hpr] at hlp
        cases hlp
    · obtain rfl := Option.some_inj.mp hlp
      constructor
      · rw [calls_setCall_same]
        rfl
      · rw [getCall_setCall_same]
        have hparent : parent = getCall t req.parentDispatchId := by
          have : getCall (upsertEntry (upsertRoot t req.rootDispatchId) now req)
              req.parentDispatchId = getCall t req.parentDispatchId := by
            rw [getCall_upsertEntry_other _ _ _ _ hpi, getCall_upsertRoot]
          rw [← this]
          simp [getCall, hcalls]
        have hres := linkChild_count parent req.dispatchId
          (by rw [hparent]; exact (hinv req.parentDispatchId).1)
          (by rw [hparent]; exact (hinv req.parentDispatchId).2)
        exact hres.2.2

/-- C7 witness: the parent-linking conclusions evaluated on the concrete
child request under its root. -/
theorem parent_linking_witness :
    (stateChild1.calls "a").isSome = true ∧
    (getCall stateChild1 "a").orderedChildren.count "c" = 1 :=
  (parent_linking initTUI 1 reqChild).2 Reachable.init stateChild1 rfl
    (by decide) (by decide)

end Dispatch
